import Mathlib

/-!
Verification of the a11yomatic Analysis & Remediation Engine.

The definitions below are a shallow embedding of the Python source:
* `src/backend/app/services/pdf_processor.py` (analyzer, detectors, scorer),
* `src/backend/app/api/v1/analysis.py` and `src/backend/app/api/v1/remediation.py`
  (endpoints and background tasks over the persisted store),
* `src/backend/app/services/pdf_fixer.py` (bulk fix application).

Modelling conventions:
* Extracted page content (text, table grids, image counts, structural text
  blocks) is passed in explicitly; the Python code obtains it from
  pdfplumber / PyMuPDF at the same granularity.
* `None` cells of a table grid are `Option.none`; a page whose
  `extract_text()` returns `None` is modelled with the empty string (both are
  falsy in Python and the code only uses truthiness and `strip()`).
* The float comparison `non_empty >= len(first_row) * 0.5` is exact in IEEE
  arithmetic and is embedded as `2 * non_empty ≥ len first_row`.
* The external AI-generation and fitz annotation capabilities are oracles
  (function parameters): `none` / `false` models the call raising.
* Filesystem paths are opaque strings; the fixed-artifact path derived by
  `_generate_fixed_file_path` is modelled by appending a fixed suffix.
-/

namespace A11y

/-- A table cell as extracted by pdfplumber: a nullable string. -/
abbrev Cell := Option String

/-- A table grid: a list of rows, each a list of nullable cells. -/
abbrev Table := List (List Cell)

/-- One structural text block of `page.get_text("dict")["blocks"]`:
its `"type"` value (0 = text block) and the length of its `"lines"` list. -/
structure TextBlock where
  btype : Nat
  lineCount : Nat
deriving Repr, DecidableEq

/-- Extracted content of one page, at the granularity the analyzer reads:
pdfplumber text and tables, PyMuPDF image count, structural blocks, and the
text PyMuPDF's `page.get_text()` returns in the structure pass. -/
structure PageContent where
  text : String
  tables : List Table
  imageCount : Nat
  blocks : List TextBlock
  fitzText : String
deriving Repr, DecidableEq

/-- The metadata fields `_calculate_accessibility_score` reads
(`metadata.get("is_tagged")`, `metadata.get("title")`). -/
structure PdfMetadata where
  title : String
  is_tagged : Bool
deriving Repr, DecidableEq

/-- One issue dict as produced by the detectors in `pdf_processor.py`. -/
structure Issue where
  issue_type : String
  severity : String
  page_number : Nat
  description : String
  wcag_criteria : String
  locPage : Nat
  locTable : Option Nat
  locImage : Option Nat
deriving Repr, DecidableEq

/-- Python's `str.strip()` on the string's characters: drop leading and
trailing whitespace. -/
def stripChars (l : List Char) : List Char :=
  ((l.dropWhile Char.isWhitespace).reverse.dropWhile Char.isWhitespace).reverse

/-- `cell and str(cell).strip()` truthiness for one cell: `None` and strings
that are empty after stripping are falsy. -/
def cellNonEmpty : Cell → Bool
  | none => false
  | some s => !(stripChars s.data).isEmpty

/-- `PDFProcessor._has_table_headers`: a table has headers when it has at
least 2 rows, a non-empty first row, and at least 50% non-empty first-row
cells (`non_empty >= len(first_row) * 0.5`, exact as `2*non_empty ≥ len`). -/
def hasTableHeaders (table : Table) : Bool :=
  if table.length < 2 then false
  else
    match table.head? with
    | none => false
    | some firstRow =>
      if firstRow.isEmpty then false
      else 2 * (firstRow.filter cellNonEmpty).length ≥ firstRow.length

/-- The `severity_penalties` dict of `_calculate_accessibility_score`. -/
def severityPenalty : String → Option Int
  | "critical" => some 15
  | "high" => some 10
  | "medium" => some 5
  | "low" => some 2
  | _ => none

/-- `severity_penalties.get(severity, 2)`. -/
def penaltyOf (severity : String) : Int :=
  (severityPenalty severity).getD 2

/-- `PDFProcessor._calculate_accessibility_score`: start at 100, subtract a
penalty per issue, add +10 for `is_tagged` and +5 for a truthy title, then
clamp once to [0, 100]. -/
def calculateAccessibilityScore (issues : List Issue) (metadata : PdfMetadata) : Int :=
  let base := issues.foldl (fun acc i => acc - penaltyOf i.severity) 100
  let base := if metadata.is_tagged then base + 10 else base
  let base := if metadata.title ≠ "" then base + 5 else base
  max 0 (min 100 base)

/-- Per-severity counters, as in `_categorize_issues`. -/
structure SeverityCounts where
  critical : Nat
  high : Nat
  medium : Nat
  low : Nat
deriving Repr, DecidableEq

/-- Loop body of `_categorize_issues`: increment the matching counter,
ignore unknown severities. -/
def categorizeStep (c : SeverityCounts) (i : Issue) : SeverityCounts :=
  if i.severity = "critical" then { c with critical := c.critical + 1 }
  else if i.severity = "high" then { c with high := c.high + 1 }
  else if i.severity = "medium" then { c with medium := c.medium + 1 }
  else if i.severity = "low" then { c with low := c.low + 1 }
  else c

/-- `PDFProcessor._categorize_issues`. -/
def categorizeIssues (issues : List Issue) : SeverityCounts :=
  issues.foldl categorizeStep ⟨0, 0, 0, 0⟩

/-- `PDFProcessor._determine_wcag_level`. -/
def determineWcagLevel (score : Int) : String :=
  if score ≥ 90 then "AAA"
  else if score ≥ 75 then "AA"
  else if score ≥ 60 then "A"
  else "Non-compliant"

/-- The `missing_text` issue dict emitted in `_analyze_content`
(`page` is the 1-based page number). -/
def missingTextIssue (page : Nat) : Issue :=
  { issue_type := "missing_text", severity := "critical", page_number := page
  , description := "Page appears to be image-only or has insufficient text. This makes it inaccessible to screen readers."
  , wcag_criteria := "1.1.1", locPage := page, locTable := none, locImage := none }

/-- The `table_missing_headers` issue dict (`table` is the 1-based index). -/
def tableHeadersIssue (page table : Nat) : Issue :=
  { issue_type := "table_missing_headers", severity := "high", page_number := page
  , description := "Table " ++ toString table ++ " is missing proper headers. Tables need clear headers for accessibility."
  , wcag_criteria := "1.3.1", locPage := page, locTable := some table, locImage := none }

/-- The `complex_table` issue dict. -/
def complexTableIssue (page table : Nat) : Issue :=
  { issue_type := "complex_table", severity := "medium", page_number := page
  , description := "Table " ++ toString table ++ " is complex and may need additional structure for accessibility."
  , wcag_criteria := "1.3.1", locPage := page, locTable := some table, locImage := none }

/-- The `missing_alt_text` issue dict (`image` is the 1-based index). -/
def altTextIssue (page image : Nat) : Issue :=
  { issue_type := "missing_alt_text", severity := "high", page_number := page
  , description := "Image " ++ toString image ++ " is missing alternative text. All images must have descriptive alt text."
  , wcag_criteria := "1.1.1", locPage := page, locTable := none, locImage := some image }

/-- The `missing_heading_structure` issue dict. -/
def headingIssue (page : Nat) : Issue :=
  { issue_type := "missing_heading_structure", severity := "medium", page_number := page
  , description := "Document may be missing proper heading structure. Headings help organize content."
  , wcag_criteria := "1.3.1", locPage := page, locTable := none, locImage := none }

/-- The `potential_contrast_issue` issue dict. -/
def contrastIssue (page : Nat) : Issue :=
  { issue_type := "potential_contrast_issue", severity := "low", page_number := page
  , description := "Page contains text and images. Verify color contrast meets WCAG requirements (4.5:1 for normal text)."
  , wcag_criteria := "1.4.3", locPage := page, locTable := none, locImage := none }

/-- Per-table body of the `_analyze_content` loop (`pageIdx`, `tableIdx`
0-based as in `enumerate`): a missing-headers issue when
`_has_table_headers` is false, and a complex-table issue when the table has
more than 10 rows and more than 5 first-row cells. -/
def tableIssues (pageIdx tableIdx : Nat) (table : Table) : List Issue :=
  (if !hasTableHeaders table then [tableHeadersIssue (pageIdx + 1) (tableIdx + 1)] else [])
    ++
  (if table.length > 10 ∧ (table.headD []).length > 5
   then [complexTableIssue (pageIdx + 1) (tableIdx + 1)] else [])

/-- `for table_idx, table in enumerate(tables)` in `_analyze_content`. -/
def tablesIssues (pageIdx : Nat) : Nat → List Table → List Issue
  | _, [] => []
  | tableIdx, t :: ts =>
    tableIssues pageIdx tableIdx t ++ tablesIssues pageIdx (tableIdx + 1) ts

/-- Per-page body of `_analyze_content`: the `missing_text` check
(`not text or len(text.strip()) < 10`) followed by the table checks. -/
def analyzeContentPage (pageIdx : Nat) (pc : PageContent) : List Issue :=
  (if pc.text = "" ∨ (stripChars pc.text.data).length < 10
   then [missingTextIssue (pageIdx + 1)] else [])
    ++ tablesIssues pageIdx 0 pc.tables

/-- `for page_num, page in enumerate(pdf.pages)` in `_analyze_content`. -/
def analyzeContentPages : Nat → List PageContent → List Issue
  | _, [] => []
  | pageIdx, p :: ps =>
    analyzeContentPage pageIdx p ++ analyzeContentPages (pageIdx + 1) ps

/-- `PDFProcessor._analyze_content` over the extracted pages. -/
def analyzeContent (pages : List PageContent) : List Issue :=
  analyzeContentPages 0 pages

/-- The heading heuristic of `_analyze_structure`: some block has
`type == 0` and a non-empty `lines` list. -/
def hasHeadings (blocks : List TextBlock) : Bool :=
  blocks.any (fun b => b.btype = 0 && b.lineCount > 0)

/-- Per-page body of `_analyze_structure`: one `missing_alt_text` issue per
image, the first-page heading check, and the text-plus-images contrast
advisory (`page.get_text()` truthiness). -/
def analyzeStructurePage (pageIdx : Nat) (pc : PageContent) : List Issue :=
  ((List.range pc.imageCount).map (fun imgIdx => altTextIssue (pageIdx + 1) (imgIdx + 1)))
    ++
  (if !hasHeadings pc.blocks ∧ pageIdx = 0 then [headingIssue (pageIdx + 1)] else [])
    ++
  (if pc.imageCount > 0 ∧ pc.fitzText ≠ "" then [contrastIssue (pageIdx + 1)] else [])

/-- `for page_num in range(len(doc))` in `_analyze_structure`. -/
def analyzeStructurePages : Nat → List PageContent → List Issue
  | _, [] => []
  | pageIdx, p :: ps =>
    analyzeStructurePage pageIdx p ++ analyzeStructurePages (pageIdx + 1) ps

/-- `PDFProcessor._analyze_structure` over the extracted pages. -/
def analyzeStructure (pages : List PageContent) : List Issue :=
  analyzeStructurePages 0 pages

/-- The result dict of `PDFProcessor.analyze_pdf`. -/
structure AnalysisResult where
  total_issues : Nat
  critical_issues : Nat
  high_issues : Nat
  medium_issues : Nat
  low_issues : Nat
  overall_score : Int
  issues : List Issue
  metadata : PdfMetadata
  wcag_compliance_level : String
deriving Repr, DecidableEq

/-- `PDFProcessor.analyze_pdf`: content issues, then structure issues, then
score, per-severity counts and compliance level. -/
def analyzePdf (pages : List PageContent) (metadata : PdfMetadata) : AnalysisResult :=
  let issues := analyzeContent pages ++ analyzeStructure pages
  let overallScore := calculateAccessibilityScore issues metadata
  let counts := categorizeIssues issues
  { total_issues := issues.length
  , critical_issues := counts.critical
  , high_issues := counts.high
  , medium_issues := counts.medium
  , low_issues := counts.low
  , overall_score := overallScore
  , issues := issues
  , metadata := metadata
  , wcag_compliance_level := determineWcagLevel overallScore }

/-! ## Persisted store and endpoints

Rows of the four tables of `app/models/pdf.py`, restricted to the columns the
endpoints under verification read or write.  UUID primary keys are modelled by
a store-level counter (`nextId`); creation/update timestamps are not modelled
(no claim depends on them). -/

/-- A `pdf_documents` row. -/
structure PDFDocument where
  id : String
  user_id : String
  file_path : String
  processing_status : String
deriving Repr, DecidableEq

/-- An `accessibility_issues` row. -/
structure AccessibilityIssue where
  id : String
  pdf_id : String
  issue_type : String
  severity : String
  page_number : Nat
  description : String
  wcag_criteria : String
deriving Repr, DecidableEq

/-- A `remediation_plans` row. -/
structure RemediationPlan where
  id : String
  issue_id : String
  ai_generated_content : Option String
  user_approved : Bool
  implementation_status : String
deriving Repr, DecidableEq

/-- An `analysis_reports` row. -/
structure AnalysisReport where
  pdf_id : String
  overall_score : Int
  total_issues : Nat
  critical_issues : Nat
  high_issues : Nat
  medium_issues : Nat
  low_issues : Nat
  wcag_compliance_level : String
deriving Repr, DecidableEq

/-- The persisted store the endpoints query and mutate. -/
structure Store where
  documents : List PDFDocument
  issues : List AccessibilityIssue
  plans : List RemediationPlan
  reports : List AnalysisReport
  nextId : Nat
deriving Repr, DecidableEq

/-- The HTTP error outcomes the endpoints raise. -/
inductive HttpError where
  | notFound (detail : String)
  | forbidden (detail : String)
  | badRequest (detail : String)
  | internal
deriving Repr, DecidableEq

/-- `db.query(AccessibilityIssue).filter(id == issue_id).first()`. -/
def findIssue (st : Store) (issueId : String) : Option AccessibilityIssue :=
  st.issues.find? (fun i => i.id == issueId)

/-- `db.query(PDFDocument).filter(id == pdf_id, user_id == user).first()`. -/
def findOwnedPdf (st : Store) (pdfId userId : String) : Option PDFDocument :=
  st.documents.find? (fun d => d.id == pdfId && d.user_id == userId)

/-- `db.query(RemediationPlan).filter(issue_id == issue_id).first()`. -/
def findPlanByIssue (st : Store) (issueId : String) : Option RemediationPlan :=
  st.plans.find? (fun p => p.issue_id == issueId)

/-- `db.query(RemediationPlan).filter(id == remediation_id).first()`. -/
def findPlan (st : Store) (planId : String) : Option RemediationPlan :=
  st.plans.find? (fun p => p.id == planId)

/-- Write one document's `processing_status`. -/
def setStatus (st : Store) (pdfId status : String) : Store :=
  { st with documents :=
      st.documents.map (fun d =>
        if d.id == pdfId then { d with processing_status := status } else d) }

/-- Replace a plan row by id. -/
def updatePlan (st : Store) (p : RemediationPlan) : Store :=
  { st with plans := st.plans.map (fun q => if q.id == p.id then p else q) }

/-- The AI-generation capability (`AIService.generate_remediation_suggestion`)
as an oracle: `none` models the call raising. -/
abbrev AiOracle := AccessibilityIssue → Option String

/-- `POST /remediation/{issue_id}` (`generate_remediation`): 404 for an
unknown issue, 403 when the caller does not own the issue's document, the
existing plan unchanged when one exists, otherwise a new `pending` plan. -/
def generateRemediation (st : Store) (userId issueId : String) (ai : AiOracle) :
    Except HttpError (RemediationPlan × Store) :=
  match findIssue st issueId with
  | none => .error (.notFound "Issue not found")
  | some issue =>
    match findOwnedPdf st issue.pdf_id userId with
    | none => .error (.forbidden "Access denied")
    | some _ =>
      match findPlanByIssue st issueId with
      | some existing => .ok (existing, st)
      | none =>
        match ai issue with
        | none => .error .internal
        | some suggestion =>
          let plan : RemediationPlan :=
            { id := toString st.nextId, issue_id := issueId
            , ai_generated_content := some suggestion
            , user_approved := false, implementation_status := "pending" }
          .ok (plan, { st with plans := st.plans ++ [plan], nextId := st.nextId + 1 })

/-- `GET /remediation/{issue_id}` (`get_remediation`): 404 without a plan,
403 when the caller does not own the issue's document.  (When the plan exists
but the issue row is gone the handler dereferences `issue.pdf_id` on `None`,
an unhandled 500: modelled as `internal`.) -/
def getRemediation (st : Store) (userId issueId : String) :
    Except HttpError RemediationPlan :=
  match findPlanByIssue st issueId with
  | none => .error (.notFound "Remediation not found")
  | some plan =>
    match findIssue st issueId with
    | none => .error .internal
    | some issue =>
      match findOwnedPdf st issue.pdf_id userId with
      | none => .error (.forbidden "Access denied")
      | some _ => .ok plan

/-- `PUT /remediation/{issue_id}/approve` (`approve_remediation`): looks the
plan up by issue id and updates it.  The handler never consults
`current_user` beyond authentication, so the caller identity is an unused
parameter — exactly as in the source. -/
def approveRemediation (st : Store) (_userId issueId : String) (approved : Bool) :
    Except HttpError (RemediationPlan × Store) :=
  match findPlanByIssue st issueId with
  | none => .error (.notFound "Remediation not found")
  | some plan =>
    let updated :=
      { plan with
          user_approved := approved,
          implementation_status :=
            if approved then "pending_implementation" else "rejected" }
    .ok (updated, updatePlan st updated)

/-- The acknowledgment body returned by `start_analysis`. -/
structure AnalysisAck where
  message : String
  pdf_id : String
  status : String
deriving Repr, DecidableEq

instance {ε α : Type} [DecidableEq ε] [DecidableEq α] : DecidableEq (Except ε α) := fun a b =>
  match a, b with
  | .error e, .error f => if h : e = f then .isTrue (by rw [h]) else .isFalse (by simp [h])
  | .ok x, .ok y => if h : x = y then .isTrue (by rw [h]) else .isFalse (by simp [h])
  | .error _, .ok _ => .isFalse (by simp)
  | .ok _, .error _ => .isFalse (by simp)

/-- Outcome of the `start_analysis` request itself: the HTTP response, the
store as the handler leaves it, and whether a background task was queued. -/
structure TriggerResult where
  response : Except HttpError AnalysisAck
  store : Store
  queued : Bool
deriving Repr, DecidableEq

/-- `POST /analysis/{pdf_id}/analyze` (`start_analysis`): 404 for a document
the caller does not own, 400 when the document is already `analyzing`
(nothing queued, nothing changed), otherwise queue `analyze_pdf_task` and
acknowledge. -/
def startAnalysis (st : Store) (userId pdfId : String) : TriggerResult :=
  match findOwnedPdf st pdfId userId with
  | none => { response := .error (.notFound "PDF not found"), store := st, queued := false }
  | some pdf =>
    if pdf.processing_status == "analyzing" then
      { response := .error (.badRequest "Analysis already in progress")
      , store := st, queued := false }
    else
      { response := .ok { message := "Analysis started", pdf_id := pdfId, status := "processing" }
      , store := st, queued := true }

/-- Turn the analyzer's issue dicts into `accessibility_issues` rows with
fresh ids, as the `for issue_data in ...: db.add(issue)` loop does. -/
def issueRows (pdfId : String) : Nat → List Issue → List AccessibilityIssue
  | _, [] => []
  | n, i :: rest =>
    { id := toString n, pdf_id := pdfId, issue_type := i.issue_type
    , severity := i.severity, page_number := i.page_number
    , description := i.description, wcag_criteria := i.wcag_criteria }
      :: issueRows pdfId (n + 1) rest

/-- The document-content access collaborator: given a stored path, the
extracted pages and metadata, or `none` when `analyze_pdf` raises. -/
abbrev ContentOracle := String → Option (List PageContent × PdfMetadata)

/-- `analyze_pdf_task`: set the document to `analyzing`, run the analyzer,
then either persist all issue rows plus one new report and set `completed`,
or set `failed` on an analysis error (no partial rows are kept). -/
def analyzePdfTask (st : Store) (pdfId : String) (contents : ContentOracle) : Store :=
  match st.documents.find? (fun d => d.id == pdfId) with
  | none => st
  | some pdf =>
    let st1 := setStatus st pdfId "analyzing"
    match contents pdf.file_path with
    | none => setStatus st1 pdfId "failed"
    | some (pages, md) =>
      let r := analyzePdf pages md
      let rows := issueRows pdfId st1.nextId r.issues
      let report : AnalysisReport :=
        { pdf_id := pdfId, overall_score := r.overall_score
        , total_issues := r.total_issues, critical_issues := r.critical_issues
        , high_issues := r.high_issues, medium_issues := r.medium_issues
        , low_issues := r.low_issues
        , wcag_compliance_level := r.wcag_compliance_level }
      let st2 := { st1 with
                     issues := st1.issues ++ rows,
                     reports := st1.reports ++ [report],
                     nextId := st1.nextId + rows.length }
      setStatus st2 pdfId "completed"

/-! ## Bulk remediation workflows -/

/-- The request body of the bulk generate/implement endpoints. -/
structure BulkRemediationRequest where
  pdf_ids : Option (List String)
  issue_types : Option (List String)
  severities : Option (List String)
deriving Repr, DecidableEq

/-- `if request.xs: query = query.filter(col.in_(request.xs))` — Python
truthiness: `None` and the empty list leave the query unfiltered. -/
def applyFilter (f : Option (List String)) (v : String) : Bool :=
  match f with
  | none => true
  | some [] => true
  | some l => l.contains v

/-- The `BulkRemediationResponse` body. -/
structure BulkRemediationResponse where
  total_processed : Nat
  successful : Nat
  failed : Nat
  remediation_ids : List String
deriving Repr, DecidableEq

/-- A bulk endpoint's synchronous outcome: the response body plus the ids
handed to the queued background task (empty when nothing was queued). -/
structure BulkTrigger where
  response : BulkRemediationResponse
  queuedIds : List String
deriving Repr, DecidableEq

/-- The issue query of `generate_bulk_remediations`: the caller's issues,
optionally filtered, excluding issues that already have a plan. -/
def selectBulkIssues (st : Store) (userId : String) (req : BulkRemediationRequest) :
    List AccessibilityIssue :=
  st.issues.filter (fun i =>
    st.documents.any (fun d => d.id == i.pdf_id && d.user_id == userId)
    && applyFilter req.pdf_ids i.pdf_id
    && applyFilter req.issue_types i.issue_type
    && applyFilter req.severities i.severity
    && !(st.plans.any (fun p => p.issue_id == i.id)))

/-- `POST /remediation/bulk/generate`: select, queue the background task, and
answer immediately with zero success/failure counts. -/
def generateBulkRemediations (st : Store) (userId : String) (req : BulkRemediationRequest) :
    BulkTrigger :=
  let issues := selectBulkIssues st userId req
  if issues.isEmpty then
    { response := ⟨0, 0, 0, []⟩, queuedIds := [] }
  else
    { response := { total_processed := issues.length, successful := 0, failed := 0
                  , remediation_ids := [] }
    , queuedIds := issues.map (fun i => i.id) }

/-- Outcome of one item of the bulk-generation background loop. -/
inductive ItemOutcome where
  | success (planId : String)
  | failure
deriving Repr, DecidableEq

/-- One iteration of `process_bulk_remediations`: missing issue or
non-owned document or a raising generation call fail the item; an existing
plan or a fresh plan succeed it. -/
def processBulkItem (st : Store) (userId issueId : String) (ai : AiOracle) :
    Store × ItemOutcome :=
  match findIssue st issueId with
  | none => (st, .failure)
  | some issue =>
    match findOwnedPdf st issue.pdf_id userId with
    | none => (st, .failure)
    | some _ =>
      match findPlanByIssue st issueId with
      | some existing => (st, .success existing.id)
      | none =>
        match ai issue with
        | none => (st, .failure)
        | some suggestion =>
          let plan : RemediationPlan :=
            { id := toString st.nextId, issue_id := issueId
            , ai_generated_content := some suggestion
            , user_approved := false, implementation_status := "pending" }
          ({ st with plans := st.plans ++ [plan], nextId := st.nextId + 1 }, .success plan.id)

/-- The `for issue_id in issue_ids` loop of `process_bulk_remediations`,
carrying the store and the `successful`/`failed`/`remediation_ids`
accumulators. -/
def bulkRemediationLoop (ai : AiOracle) (userId : String) :
    List String → Store → Nat → Nat → List String → Store × Nat × Nat × List String
  | [], st, s, f, ids => (st, s, f, ids)
  | issueId :: rest, st, s, f, ids =>
    match processBulkItem st userId issueId ai with
    | (st', .success pid) => bulkRemediationLoop ai userId rest st' (s + 1) f (ids ++ [pid])
    | (st', .failure) => bulkRemediationLoop ai userId rest st' s (f + 1) ids

/-- What the detached bulk-generation task leaves behind: the mutated store,
its local counters, and the single log line that receives them. -/
structure BulkRunResult where
  store : Store
  successful : Nat
  failed : Nat
  remediation_ids : List String
  log : List (Nat × Nat)
deriving Repr, DecidableEq

/-- `process_bulk_remediations`: run the loop, then log the final counts
(the only place they go). -/
def processBulkRemediations (st : Store) (issueIds : List String) (userId : String)
    (ai : AiOracle) : BulkRunResult :=
  match bulkRemediationLoop ai userId issueIds st 0 0 [] with
  | (st', s, f, ids) =>
    { store := st', successful := s, failed := f, remediation_ids := ids, log := [(s, f)] }

/-- The status breakdown of `GET /remediation/bulk/status`. -/
structure BulkStatusResponse where
  total_remediations : Nat
  pending : Nat
  approved : Nat
  rejected : Nat
  pending_implementation : Nat
  implemented : Nat
deriving Repr, DecidableEq

/-- The plans of the caller's documents (the join in `get_bulk_status`). -/
def ownedPlans (st : Store) (userId : String) : List RemediationPlan :=
  st.plans.filter (fun p =>
    st.issues.any (fun i => i.id == p.issue_id
      && st.documents.any (fun d => d.id == i.pdf_id && d.user_id == userId)))

/-- `get_bulk_status`: counts of the caller's plans by implementation
status — the only aggregate a caller can retrieve after a bulk run. -/
def getBulkStatus (st : Store) (userId : String) : BulkStatusResponse :=
  let rems := ownedPlans st userId
  { total_remediations := rems.length
  , pending := rems.countP (fun p => p.implementation_status == "pending")
  , approved := rems.countP (fun p => p.implementation_status == "approved")
  , rejected := rems.countP (fun p => p.implementation_status == "rejected")
  , pending_implementation :=
      rems.countP (fun p => p.implementation_status == "pending_implementation")
  , implemented := rems.countP (fun p => p.implementation_status == "implemented") }

/-! ## PDF fixer (`pdf_fixer.py`) and bulk implementation -/

/-- The keys of `PDFFixer.supported_fixes`. -/
def supportedFixTypes : List String :=
  ["missing_alt_text", "table_headers", "reading_order", "missing_title",
   "language_specification", "color_contrast", "font_size"]

/-- `_generate_fixed_file_path`, with the directory arithmetic abstracted to
a deterministic non-empty suffix (the code writes `<stem>_fixed.pdf` into a
`fixed/` sibling directory of the original path). -/
def generateFixedFilePath (originalPath : String) : String :=
  originalPath ++ ".fixed.pdf"

/-- One remediation payload dict built by `process_bulk_implementations`. -/
structure RemediationData where
  remediation_id : String
  issue_type : String
  severity : String
  description : String
  wcag_criteria : String
  ai_content : Option String
deriving Repr, DecidableEq

/-- The fitz annotation capability as an oracle: whether the per-type fix
method (and the save of the modified document) succeeds for a given path and
issue type. -/
abbrev FixOracle := String → String → Bool

/-- Result of `PDFFixer.implement_remediation`. -/
structure FixResult where
  success : Bool
  fixed_file_path : Option String
deriving Repr, DecidableEq

/-- `PDFFixer.implement_remediation`: an issue type without a fix method
fails; otherwise the fix method runs and, on success, the fixed artifact
path is produced. -/
def implementRemediation (pdfPath : String) (r : RemediationData) (fitz : FixOracle) :
    FixResult :=
  if !supportedFixTypes.contains r.issue_type then
    { success := false, fixed_file_path := none }
  else if fitz pdfPath r.issue_type then
    { success := true, fixed_file_path := some (generateFixedFilePath pdfPath) }
  else
    { success := false, fixed_file_path := none }

/-- Result of `PDFFixer.implement_bulk_fixes`. -/
structure BulkFixResult where
  success : Bool
  total_fixes : Nat
  successful_fixes : Nat
  failed_fixes : Nat
  fixed_file_path : Option String
deriving Repr, DecidableEq

/-- The `for remediation in remediations` loop of `implement_bulk_fixes`:
count successes and failures and remember the first returned artifact path
(`if not fixed_file_path: fixed_file_path = ...`). -/
def bulkFixLoop (pdfPath : String) (fitz : FixOracle) :
    List RemediationData → Nat → Nat → Option String → Nat × Nat × Option String
  | [], s, f, fp => (s, f, fp)
  | r :: rest, s, f, fp =>
    let res := implementRemediation pdfPath r fitz
    if res.success then
      bulkFixLoop pdfPath fitz rest (s + 1) f
        (match fp with | none => res.fixed_file_path | some p => some p)
    else
      bulkFixLoop pdfPath fitz rest s (f + 1) fp

/-- `PDFFixer.implement_bulk_fixes`: `backupOk` models `_create_backup` (and
any other exception inside the outer `try`, which yields the all-failed
dict); otherwise the per-item loop runs and `success` is cleared exactly
when no fix succeeded. -/
def implementBulkFixes (pdfPath : String) (rems : List RemediationData)
    (fitz : FixOracle) (backupOk : String → Bool) : BulkFixResult :=
  if !backupOk pdfPath then
    { success := false, total_fixes := rems.length, successful_fixes := 0
    , failed_fixes := rems.length, fixed_file_path := none }
  else
    match bulkFixLoop pdfPath fitz rems 0 0 none with
    | (s, f, fp) =>
      { success := s != 0, total_fixes := rems.length, successful_fixes := s
      , failed_fixes := f, fixed_file_path := fp }

/-- The plan query of `implement_bulk_remediations`: approved,
`pending_implementation`, owned by the caller, optionally filtered through
the issue join. -/
def selectImplementPlans (st : Store) (userId : String) (req : BulkRemediationRequest) :
    List RemediationPlan :=
  st.plans.filter (fun p =>
    p.user_approved && p.implementation_status == "pending_implementation"
    && st.issues.any (fun i => i.id == p.issue_id
        && st.documents.any (fun d => d.id == i.pdf_id && d.user_id == userId)
        && applyFilter req.pdf_ids i.pdf_id
        && applyFilter req.issue_types i.issue_type
        && applyFilter req.severities i.severity))

/-- `POST /remediation/bulk/implement`: select, queue the background task,
and answer immediately with zero success/failure counts. -/
def implementBulkRemediations (st : Store) (userId : String) (req : BulkRemediationRequest) :
    BulkTrigger :=
  let rems := selectImplementPlans st userId req
  if rems.isEmpty then
    { response := ⟨0, 0, 0, []⟩, queuedIds := [] }
  else
    { response := { total_processed := rems.length, successful := 0, failed := 0
                  , remediation_ids := rems.map (fun r => r.id) }
    , queuedIds := rems.map (fun r => r.id) }

/-- Insertion-ordered grouping dict `pdf_remediations`. -/
abbrev Groups := List (String × List RemediationData)

/-- `pdf_remediations[pdf_id].append(...)` with dict insertion order. -/
def addToGroup (groups : Groups) (pdfId : String) (r : RemediationData) : Groups :=
  if groups.any (fun g => g.1 == pdfId) then
    groups.map (fun g => if g.1 == pdfId then (g.1, g.2 ++ [r]) else g)
  else
    groups ++ [(pdfId, [r])]

/-- First loop of `process_bulk_implementations`: resolve each plan and its
issue (failing the item when either is missing) and group payloads by the
owning document. -/
def buildGroups (st : Store) : List String → Groups → Nat → Groups × Nat
  | [], groups, f => (groups, f)
  | rid :: rest, groups, f =>
    match findPlan st rid with
    | none => buildGroups st rest groups (f + 1)
    | some plan =>
      match findIssue st plan.issue_id with
      | none => buildGroups st rest groups (f + 1)
      | some issue =>
        let r : RemediationData :=
          { remediation_id := rid, issue_type := issue.issue_type
          , severity := issue.severity, description := issue.description
          , wcag_criteria := issue.wcag_criteria
          , ai_content := plan.ai_generated_content }
        buildGroups st rest (addToGroup groups issue.pdf_id r) f

/-- Mark every plan of a group `implemented`, as the inner
`for remediation_data in remediations` update loop does. -/
def markImplemented (st : Store) (rems : List RemediationData) : Store :=
  { st with plans := st.plans.map (fun p =>
      if rems.any (fun r => r.remediation_id == p.id)
      then { p with implementation_status := "implemented" } else p) }

/-- Write one document's `file_path`. -/
def setFilePath (st : Store) (pdfId newPath : String) : Store :=
  { st with documents := st.documents.map (fun d =>
      if d.id == pdfId then { d with file_path := newPath } else d) }

/-- Second-loop body of `process_bulk_implementations` for one document
group: a missing/unowned document fails the whole group; otherwise
`implement_bulk_fixes` runs, and on `success` every plan of the group is
marked `implemented`, the per-item counts are added, and the document path
is updated when a truthy artifact path was returned; on failure the whole
group is counted failed and nothing is written. -/
def processImplementGroup (st : Store) (userId : String) (fitz : FixOracle)
    (backupOk : String → Bool) (acc : Nat × Nat) (pdfId : String)
    (rems : List RemediationData) : Store × Nat × Nat :=
  match findOwnedPdf st pdfId userId with
  | none => (st, acc.1, acc.2 + rems.length)
  | some pdf =>
    let result := implementBulkFixes pdf.file_path rems fitz backupOk
    if result.success then
      let st1 := markImplemented st rems
      let st2 :=
        match result.fixed_file_path with
        | some p => if p ≠ "" then setFilePath st1 pdfId p else st1
        | none => st1
      (st2, acc.1 + result.successful_fixes, acc.2 + result.failed_fixes)
    else
      (st, acc.1, acc.2 + rems.length)

/-- The `for pdf_id, remediations in pdf_remediations.items()` loop. -/
def implementGroupsLoop (userId : String) (fitz : FixOracle) (backupOk : String → Bool) :
    Groups → Store → Nat → Nat → Store × Nat × Nat
  | [], st, s, f => (st, s, f)
  | (pdfId, rems) :: rest, st, s, f =>
    match processImplementGroup st userId fitz backupOk (s, f) pdfId rems with
    | (st', s', f') => implementGroupsLoop userId fitz backupOk rest st' s' f'

/-- `process_bulk_implementations`: group, then apply per document group. -/
def processBulkImplementations (st : Store) (remediationIds : List String)
    (userId : String) (fitz : FixOracle) (backupOk : String → Bool) :
    Store × Nat × Nat :=
  match buildGroups st remediationIds [] 0 with
  | (groups, f0) => implementGroupsLoop userId fitz backupOk groups st 0 f0

/-! ## Reference formulations taken from the spec text (for refinement
claims), and concrete instances used by counterexamples and witnesses -/

/-- The severity penalties exactly as §4.3 of the spec words them
(`critical=15, high=10, medium=5, low=2`; the spec names no others). -/
def specPenalty : String → Int
  | "critical" => 15
  | "high" => 10
  | "medium" => 5
  | "low" => 2
  | _ => 0

/-- The §4.3 scoring formula as the spec words it: 100 minus the summed
severity penalties, plus +10 for a tagged document and +5 for a non-empty
title, clamped once to [0, 100] after all additions and subtractions. -/
def specScore (issues : List Issue) (md : PdfMetadata) : Int :=
  min 100 (max 0
    (100 - (issues.map (fun i => specPenalty i.severity)).sum
      + (if md.is_tagged then 10 else 0)
      + (if md.title ≠ "" then 5 else 0)))

/-- The tier mapping as the claim words it: AAA when score ≥ 90,
AA when 75 ≤ score < 90, A when 60 ≤ score < 75, Non-compliant otherwise. -/
def specTier (score : Int) : String :=
  if 90 ≤ score then "AAA"
  else if 75 ≤ score ∧ score < 90 then "AA"
  else if 60 ≤ score ∧ score < 75 then "A"
  else "Non-compliant"

/-- The severities the detectors emit (the closed enumeration of §3). -/
def validSeverity (s : String) : Prop :=
  s ∈ (["critical", "high", "medium", "low"] : List String)

instance (s : String) : Decidable (validSeverity s) := by
  unfold validSeverity; infer_instance

/-- Whether one per-item fix of the fixer pipeline succeeds: the issue type
has a fix method and the annotation capability succeeds on it. -/
def fixApplies (path : String) (fitz : FixOracle) (r : RemediationData) : Bool :=
  supportedFixTypes.contains r.issue_type && fitz path r.issue_type

/-- C3 scenario: one page with no extractable text, no tables, no images,
no structural blocks. -/
def scenarioPages : List PageContent :=
  [{ text := "", tables := [], imageCount := 0, blocks := [], fitzText := "" }]

/-- C3 scenario metadata: empty title, untagged. -/
def scenarioMeta : PdfMetadata := { title := "", is_tagged := false }

/-- A single-row table whose only row is fully populated. -/
def singleRowTable : Table := [[some "Name", some "Age", some "City"]]

/-- A two-row table with populated headers. -/
def headeredTable : Table :=
  [[some "Name", some "Age", some "City"], [some "Ann", some "7", some "Rome"]]

/-- A two-row table whose first row is all empty strings. -/
def headerlessTable : Table :=
  [[some "", some "", some ""], [some "Ann", some "7", some "Rome"]]

/-- A page holding only `singleRowTable` (enough text not to trip the
missing-text detector). -/
def singleRowTablePage : PageContent :=
  { text := "This page has plenty of text on it."
  , tables := [singleRowTable], imageCount := 0, blocks := [], fitzText := "" }

/-- A page holding only `headeredTable`. -/
def headeredTablePage : PageContent :=
  { text := "This page has plenty of text on it."
  , tables := [headeredTable], imageCount := 0, blocks := [], fitzText := "" }

/-- A page holding only `headerlessTable`. -/
def headerlessTablePage : PageContent :=
  { text := "This page has plenty of text on it."
  , tables := [headerlessTable], imageCount := 0, blocks := [], fitzText := "" }

/-- An AI oracle that always raises. -/
def aiNone : AiOracle := fun _ => none

/-- A fix oracle for which every supported fix succeeds. -/
def fitzAll : FixOracle := fun _ _ => true

/-- A backup step that always succeeds. -/
def bkAll : String → Bool := fun _ => true

/-- A document owned by `u1`. -/
def docD1 : PDFDocument :=
  { id := "d1", user_id := "u1", file_path := "u1/doc.pdf", processing_status := "completed" }

/-- An alt-text issue row on `docD1`. -/
def issueI1 : AccessibilityIssue :=
  { id := "i1", pdf_id := "d1", issue_type := "missing_alt_text", severity := "high"
  , page_number := 1, description := "img", wcag_criteria := "1.1.1" }

/-- A missing-text issue row on `docD1`. -/
def issueI2 : AccessibilityIssue :=
  { id := "i2", pdf_id := "d1", issue_type := "missing_text", severity := "critical"
  , page_number := 1, description := "txt", wcag_criteria := "1.1.1" }

/-- An existing plan for `issueI1`. -/
def planP1 : RemediationPlan :=
  { id := "p1", issue_id := "i1", ai_generated_content := some "add alt text"
  , user_approved := false, implementation_status := "pending" }

/-- Store for the idempotence claim: `issueI1` already has `planP1`. -/
def stIdem : Store :=
  { documents := [docD1], issues := [issueI1], plans := [planP1], reports := [], nextId := 7 }

/-- Store for the ownership claim: `docD1` belongs to `alice`, not to the
caller `mallory`. -/
def stBug : Store :=
  { documents := [{ docD1 with user_id := "alice" }], issues := [issueI1]
  , plans := [planP1], reports := [], nextId := 7 }

/-- An approved plan for `issueI1`, awaiting implementation. -/
def planQ1 : RemediationPlan :=
  { id := "p1", issue_id := "i1", ai_generated_content := some "add alt text"
  , user_approved := true, implementation_status := "pending_implementation" }

/-- An approved plan for `issueI2`, awaiting implementation. -/
def planQ2 : RemediationPlan :=
  { id := "p2", issue_id := "i2", ai_generated_content := some "add text layer"
  , user_approved := true, implementation_status := "pending_implementation" }

/-- Store for the bulk-implementation claims: one document, two approved
plans — one whose issue type has a fix method (`missing_alt_text`) and one
without (`missing_text`). -/
def stC6 : Store :=
  { documents := [docD1], issues := [issueI1, issueI2]
  , plans := [planQ1, planQ2], reports := [], nextId := 7 }

/-- Store for the bulk-response claim: issue `i1` has no plan yet (so bulk
generation selects it) and `planQ2` is approved and pending implementation
(so bulk implementation selects it). -/
def stSel : Store :=
  { documents := [docD1], issues := [issueI1, issueI2]
  , plans := [planQ2], reports := [], nextId := 7 }

/-- The unfiltered bulk request body. -/
def reqNone : BulkRemediationRequest :=
  { pdf_ids := none, issue_types := none, severities := none }

/-- A store with no issues at all (the bulk id `ghost` resolves nowhere). -/
def stGhost : Store :=
  { documents := [docD1], issues := [], plans := [], reports := [], nextId := 1 }

/-- A store ready to accept analysis: one completed document. -/
def stC7 : Store :=
  { documents := [docD1], issues := [], plans := [], reports := [], nextId := 1 }

/-- A store whose only document is mid-analysis. -/
def stC7busy : Store :=
  { documents := [{ docD1 with processing_status := "analyzing" }], issues := []
  , plans := [], reports := [], nextId := 1 }

/-- A content oracle returning the C3 scenario for every path. -/
def contentsC7 : ContentOracle := fun _ => some (scenarioPages, scenarioMeta)

/-- The report row `analyze_pdf_task` persists for given contents. -/
def reportRowFor (pdfId : String) (pages : List PageContent) (md : PdfMetadata) :
    AnalysisReport :=
  let r := analyzePdf pages md
  { pdf_id := pdfId, overall_score := r.overall_score
  , total_issues := r.total_issues, critical_issues := r.critical_issues
  , high_issues := r.high_issues, medium_issues := r.medium_issues
  , low_issues := r.low_issues
  , wcag_compliance_level := r.wcag_compliance_level }

/-- A small concrete issue list for witnesses (penalties 15 and 2). -/
def witIssues : List Issue := [missingTextIssue 1, contrastIssue 1]

/-- A concrete metadata record with a title and tagging. -/
def witMeta : PdfMetadata := { title := "Report", is_tagged := true }

/-- The remediation payloads `process_bulk_implementations` builds for the
group of `docD1` in `stC6`. -/
def remsC6 : List RemediationData :=
  [{ remediation_id := "p1", issue_type := "missing_alt_text", severity := "high"
   , description := "img", wcag_criteria := "1.1.1", ai_content := some "add alt text" },
   { remediation_id := "p2", issue_type := "missing_text", severity := "critical"
   , description := "txt", wcag_criteria := "1.1.1", ai_content := some "add text layer" }]

/-! ## Helper lemmas -/

theorem score_foldl_sub (l : List Issue) (a : Int) :
    l.foldl (fun acc i => acc - penaltyOf i.severity) a
      = a - (l.map (fun i => penaltyOf i.severity)).sum := by
  induction l generalizing a with
  | nil => simp
  | cons x xs ih => simp [ih]; ring

theorem tableIssues_severity (p t : Nat) (tb : Table) :
    ∀ i ∈ tableIssues p t tb, validSeverity i.severity := by
  intro i hi
  simp only [tableIssues, List.mem_append] at hi
  rcases hi with hi | hi <;>
    (split at hi <;> simp_all [tableHeadersIssue, complexTableIssue, validSeverity])

theorem tablesIssues_severity (p : Nat) (ts : List Table) :
    ∀ (t : Nat), ∀ i ∈ tablesIssues p t ts, validSeverity i.severity := by
  induction ts with
  | nil => intro t i hi; simp [tablesIssues] at hi
  | cons a as ih =>
    intro t i hi
    simp only [tablesIssues, List.mem_append] at hi
    rcases hi with hi | hi
    · exact tableIssues_severity p t a i hi
    · exact ih (t + 1) i hi

theorem analyzeContentPage_severity (p : Nat) (pc : PageContent) :
    ∀ i ∈ analyzeContentPage p pc, validSeverity i.severity := by
  intro i hi
  simp only [analyzeContentPage, List.mem_append] at hi
  rcases hi with hi | hi
  · split at hi <;> simp_all [missingTextIssue, validSeverity]
  · exact tablesIssues_severity p pc.tables 0 i hi

theorem analyzeContentPages_severity (ps : List PageContent) :
    ∀ (p : Nat), ∀ i ∈ analyzeContentPages p ps, validSeverity i.severity := by
  induction ps with
  | nil => intro p i hi; simp [analyzeContentPages] at hi
  | cons a as ih =>
    intro p i hi
    simp only [analyzeContentPages, List.mem_append] at hi
    rcases hi with hi | hi
    · exact analyzeContentPage_severity p a i hi
    · exact ih (p + 1) i hi

theorem analyzeStructurePage_severity (p : Nat) (pc : PageContent) :
    ∀ i ∈ analyzeStructurePage p pc, validSeverity i.severity := by
  intro i hi
  unfold analyzeStructurePage at hi
  rcases List.mem_append.mp hi with hm | hm
  · rcases List.mem_append.mp hm with hm2 | hm2
    · obtain ⟨k, -, rfl⟩ := List.mem_map.mp hm2
      simp [altTextIssue, validSeverity]
    · split at hm2 <;> simp_all [headingIssue, validSeverity]
  · split at hm <;> simp_all [contrastIssue, validSeverity]

theorem analyzeStructurePages_severity (ps : List PageContent) :
    ∀ (p : Nat), ∀ i ∈ analyzeStructurePages p ps, validSeverity i.severity := by
  induction ps with
  | nil => intro p i hi; simp [analyzeStructurePages] at hi
  | cons a as ih =>
    intro p i hi
    simp only [analyzeStructurePages, List.mem_append] at hi
    rcases hi with hi | hi
    · exact analyzeStructurePage_severity p a i hi
    · exact ih (p + 1) i hi

theorem categorize_foldl_sum (l : List Issue) (c : SeverityCounts)
    (h : ∀ i ∈ l, validSeverity i.severity) :
    (l.foldl categorizeStep c).critical + (l.foldl categorizeStep c).high
      + (l.foldl categorizeStep c).medium + (l.foldl categorizeStep c).low
      = c.critical + c.high + c.medium + c.low + l.length := by
  induction l generalizing c with
  | nil => simp
  | cons x xs ih =>
    have hx := h x (by simp)
    have hxs : ∀ i ∈ xs, validSeverity i.severity := fun i hi => h i (by simp [hi])
    rw [List.foldl_cons, ih _ hxs]
    simp [validSeverity] at hx
    rcases hx with h1 | h1 | h1 | h1 <;> simp [categorizeStep, h1] <;> omega

/-! ## Claims -/

/-- C1: for every issue list (over the detector severities) and metadata
record, the computed accessibility score equals the spec's formula — 100
minus the summed severity penalties (critical=15, high=10, medium=5, low=2)
plus the tagging (+10) and non-empty-title (+5) bonuses, clamped once to
[0, 100] — and the compliance tier of a score is AAA exactly on [90, ∞),
AA on [75, 90), A on [60, 75), Non-compliant otherwise; in particular a
score of exactly 90 yields AAA. -/
theorem c1_score_and_tier (issues : List Issue) (md : PdfMetadata)
    (hv : ∀ i ∈ issues, validSeverity i.severity) :
    calculateAccessibilityScore issues md = specScore issues md
      ∧ (∀ s : Int, determineWcagLevel s = specTier s)
      ∧ determineWcagLevel 90 = "AAA" := by
  refine ⟨?_, ?_, by norm_num [determineWcagLevel]⟩
  · have hmap : issues.map (fun i => penaltyOf i.severity)
        = issues.map (fun i => specPenalty i.severity) := by
      apply List.map_congr_left
      intro i hi
      have h := hv i hi
      simp [validSeverity] at h
      rcases h with h1 | h1 | h1 | h1 <;>
        simp [penaltyOf, severityPenalty, specPenalty, h1]
    unfold calculateAccessibilityScore specScore
    rw [score_foldl_sub, hmap]
    by_cases ht : md.title = "" <;> cases hg : md.is_tagged <;>
      simp [ht, hg] <;> omega
  · intro s
    by_cases h90 : 90 ≤ s
    · simp [determineWcagLevel, specTier, h90]
    · by_cases h75 : 75 ≤ s
      · simp [determineWcagLevel, specTier, h75, h90, show s < 90 by omega]
      · by_cases h60 : 60 ≤ s
        · simp [determineWcagLevel, specTier, h60, h75, h90, show s < 75 by omega]
        · simp [determineWcagLevel, specTier, h60, h75, h90]

/-- Witness for C1 at a concrete issue list and metadata record. -/
theorem c1_witness :
    (∀ i ∈ witIssues, validSeverity i.severity)
      ∧ (calculateAccessibilityScore witIssues witMeta = specScore witIssues witMeta
          ∧ (∀ s : Int, determineWcagLevel s = specTier s)
          ∧ determineWcagLevel 90 = "AAA") :=
  ⟨by decide, c1_score_and_tier witIssues witMeta (by decide)⟩

/-- C8: for every extracted document content and metadata, the per-severity
counts of the analysis result sum to the total issue count — the
`AnalysisReport` rows persisted by `analyze_pdf_task` copy these fields
verbatim, so `critical + high + medium + low = total_issues` for every
report the analyzer builds. -/
theorem c8_counts_sum (pages : List PageContent) (md : PdfMetadata) :
    (analyzePdf pages md).critical_issues + (analyzePdf pages md).high_issues
      + (analyzePdf pages md).medium_issues + (analyzePdf pages md).low_issues
      = (analyzePdf pages md).total_issues := by
  have hval : ∀ i ∈ analyzeContent pages ++ analyzeStructure pages,
      validSeverity i.severity := by
    intro i hi
    rcases List.mem_append.mp hi with hi | hi
    · exact analyzeContentPages_severity pages 0 i hi
    · exact analyzeStructurePages_severity pages 0 i hi
  simp only [analyzePdf, categorizeIssues]
  simpa using
    categorize_foldl_sum (analyzeContent pages ++ analyzeStructure pages) ⟨0, 0, 0, 0⟩ hval

theorem hasTableHeaders_eq_false_iff (tb : Table) :
    hasTableHeaders tb = false ↔
      (tb.length < 2 ∨ (tb.headD []).isEmpty = true
        ∨ 2 * ((tb.headD []).filter cellNonEmpty).length < (tb.headD []).length) := by
  unfold hasTableHeaders
  split
  · simp [*]
  · rename_i hlen
    cases tb with
    | nil => simp at hlen
    | cons r rs =>
      simp only [List.head?, List.headD]
      simp only [List.length_cons] at hlen
      cases he : r.isEmpty
      · simp [he, hlen, decide_eq_false_iff_not]
      · simp [he, hlen]

/-- C2 counterexample: the source emits a high "missing headers" issue for a
one-row table whose first row is `["Name","Age","City"]`, although the
fraction of non-empty first-row cells is 1 ≥ 0.5 — so "exactly when the
fraction is below 0.5" is false, and the claim's first concrete example
fails for a table consisting of that row alone. -/
theorem c2_counterexample :
    (analyzeContent [singleRowTablePage]).countP
        (fun i => i.issue_type == "table_missing_headers" && i.severity == "high") = 1
      ∧ 2 * ((singleRowTable.headD []).filter cellNonEmpty).length
          ≥ (singleRowTable.headD []).length := by
  constructor <;> decide

/-- C2 (amended): for every table on a page, the detector emits a
high-severity "missing headers" issue for that table exactly when the table
has fewer than 2 rows, or its first row is the empty list, or the fraction
of non-empty cells in the first row is below 0.5; the claim's two concrete
examples hold once the tables are given a second (body) row. -/
theorem c2_missing_headers_amended :
    (∀ (p t : Nat) (tb : Table),
        ((tableIssues p t tb).any
            (fun i => i.issue_type == "table_missing_headers" && i.severity == "high")
          = true)
          ↔ (tb.length < 2 ∨ (tb.headD []).isEmpty = true
              ∨ 2 * ((tb.headD []).filter cellNonEmpty).length < (tb.headD []).length))
      ∧ (analyzeContent [headeredTablePage]).countP
            (fun i => i.issue_type == "table_missing_headers") = 0
      ∧ (analyzeContent [headerlessTablePage]).countP
            (fun i => i.issue_type == "table_missing_headers" && i.severity == "high") = 1 := by
  refine ⟨?_, by decide, by decide⟩
  intro p t tb
  rw [← hasTableHeaders_eq_false_iff]
  unfold tableIssues
  cases h : hasTableHeaders tb
  · simp [h, tableHeadersIssue]
  · simp only [h, Bool.not_true, Bool.false_eq_true, if_false, List.nil_append]
    split <;> simp [complexTableIssue]

/-- C3 counterexample: on a one-page document with no extractable text and
an empty title, the analyzer emits exactly a critical `missing_text` issue
and a medium `missing_heading_structure` issue — no missing-title issue and
no language advisory exist anywhere in the detector set — and the score is
80, not 75. -/
theorem c3_counterexample :
    (analyzePdf scenarioPages scenarioMeta).issues.map
        (fun i => (i.issue_type, i.severity))
        = [("missing_text", "critical"), ("missing_heading_structure", "medium")]
      ∧ (analyzePdf scenarioPages scenarioMeta).overall_score = 80 := by
  constructor <;> decide

/-- C3 (amended): for a one-page document with no extractable text, tables,
images or structural blocks and an empty untagged metadata record, one
analysis run emits a critical missing-text issue and a medium
missing-heading-structure issue (there are no title or language detectors),
and the overall score is 100 − 15 − 5 = 80 with compliance tier "AA". -/
theorem c3_scenario_amended :
    analyzePdf scenarioPages scenarioMeta =
      { total_issues := 2, critical_issues := 1, high_issues := 0, medium_issues := 1
      , low_issues := 0, overall_score := 80
      , issues := [missingTextIssue 1, headingIssue 1]
      , metadata := scenarioMeta, wcag_compliance_level := "AA" } := by
  decide

/-- C4: single remediation generation is idempotent per issue: when the
issue exists, the caller owns its document, and a plan already exists,
`generate_remediation` returns that existing plan (same identifier) and
leaves the store unchanged — no second plan record is created and no error
is raised. -/
theorem c4_generate_idempotent (st : Store) (userId issueId : String) (ai : AiOracle)
    (issue : AccessibilityIssue) (pdf : PDFDocument) (plan : RemediationPlan)
    (h1 : findIssue st issueId = some issue)
    (h2 : findOwnedPdf st issue.pdf_id userId = some pdf)
    (h3 : findPlanByIssue st issueId = some plan) :
    generateRemediation st userId issueId ai = .ok (plan, st) := by
  simp [generateRemediation, h1, h2, h3]

/-- Witness for C4 on a concrete store where `issueI1` already has
`planP1`. -/
theorem c4_witness :
    findIssue stIdem "i1" = some issueI1
      ∧ findOwnedPdf stIdem "d1" "u1" = some docD1
      ∧ findPlanByIssue stIdem "i1" = some planP1
      ∧ generateRemediation stIdem "u1" "i1" aiNone = .ok (planP1, stIdem) :=
  ⟨by decide, by decide, by decide,
    c4_generate_idempotent stIdem "u1" "i1" aiNone issueI1 docD1 planP1
      (by decide) (by decide) (by decide)⟩

theorem bulkRemediationLoop_counts (ai : AiOracle) (userId : String) (l : List String) :
    ∀ (st : Store) (s f : Nat) (ids : List String),
      (bulkRemediationLoop ai userId l st s f ids).2.1
        + (bulkRemediationLoop ai userId l st s f ids).2.2.1 = s + f + l.length := by
  induction l with
  | nil => intro st s f ids; simp [bulkRemediationLoop]
  | cons a as ih =>
    intro st s f ids
    unfold bulkRemediationLoop
    rcases h : processBulkItem st userId a ai with ⟨st', o⟩
    cases o <;> simp [h, ih] <;> omega

/-- C5: for every bulk generation run — over any store, any selected issue
list, and any behaviour of the generation capability — the final counters
satisfy `successful + failed = number of selected issues`: each item is
counted exactly once, and one item's failure never stops the loop. -/
theorem c5_bulk_accounting (st : Store) (issueIds : List String) (userId : String)
    (ai : AiOracle) :
    (processBulkRemediations st issueIds userId ai).successful
      + (processBulkRemediations st issueIds userId ai).failed
      = issueIds.length := by
  unfold processBulkRemediations
  rcases h : bulkRemediationLoop ai userId issueIds st 0 0 [] with ⟨st', s, f, ids⟩
  have hc := bulkRemediationLoop_counts ai userId issueIds st 0 0 []
  rw [h] at hc
  simpa using hc

/-- C7: triggering analysis on an owned document that is `analyzing` is
rejected with a 400 error — nothing queued, store untouched; from any other
status the trigger is accepted and queued, and the background task appends
one brand-new report to the report history (prior reports untouched, no
merging). -/
theorem c7_analysis_guard (st : Store) (userId pdfId : String) (pdf : PDFDocument)
    (contents : ContentOracle)
    (hown : findOwnedPdf st pdfId userId = some pdf)
    (htask : st.documents.find? (fun d => d.id == pdfId) = some pdf) :
    (pdf.processing_status = "analyzing" →
        startAnalysis st userId pdfId =
          { response := .error (.badRequest "Analysis already in progress")
          , store := st, queued := false })
      ∧ (pdf.processing_status ≠ "analyzing" →
          startAnalysis st userId pdfId =
            { response := .ok { message := "Analysis started", pdf_id := pdfId
                              , status := "processing" }
            , store := st, queued := true }
          ∧ ∀ pages md, contents pdf.file_path = some (pages, md) →
              (analyzePdfTask st pdfId contents).reports
                = st.reports ++ [reportRowFor pdfId pages md]) := by
  constructor
  · intro hs
    simp [startAnalysis, hown, hs]
  · intro hs
    constructor
    · simp [startAnalysis, hown, hs]
    · intro pages md hc
      unfold analyzePdfTask
      simp only [htask, hc]
      simp [setStatus, reportRowFor]

/-- Witness for C7: accepted from `completed` on `stC7` (with a fresh report
appended by the task), rejected on the mid-analysis store `stC7busy`. -/
theorem c7_witness :
    (startAnalysis stC7 "u1" "d1" =
        { response := .ok { message := "Analysis started", pdf_id := "d1"
                          , status := "processing" }
        , store := stC7, queued := true }
      ∧ (analyzePdfTask stC7 "d1" contentsC7).reports
          = stC7.reports ++ [reportRowFor "d1" scenarioPages scenarioMeta])
      ∧ startAnalysis stC7busy "u1" "d1" =
          { response := .error (.badRequest "Analysis already in progress")
          , store := stC7busy, queued := false } := by
  constructor
  · have h := (c7_analysis_guard stC7 "u1" "d1" docD1 contentsC7
      (by decide) (by decide)).2 (by decide)
    exact ⟨h.1, h.2 scenarioPages scenarioMeta rfl⟩
  · exact (c7_analysis_guard stC7busy "u1" "d1"
      { docD1 with processing_status := "analyzing" } contentsC7
      (by decide) (by decide)).1 (by decide)

/-- C9 (code bug): `approve_remediation` performs no ownership check — a
caller who owns none of the documents (`mallory`) still flips the approval
flag and implementation status of the plan of someone else's issue and gets
the updated plan back, where the spec requires a not-found/forbidden outcome
with no mutation (as `generate_remediation` and `get_remediation` do). -/
theorem c9_approve_no_ownership_check :
    stBug.documents.all (fun d => d.user_id != "mallory") = true
      ∧ approveRemediation stBug "mallory" "i1" true =
          .ok ({ planP1 with
                   user_approved := true,
                   implementation_status := "pending_implementation" },
               { stBug with plans := [{ planP1 with
                   user_approved := true,
                   implementation_status := "pending_implementation" }] }) := by
  constructor
  · decide
  · decide

theorem implementRemediation_success (path : String) (r : RemediationData)
    (fitz : FixOracle) :
    (implementRemediation path r fitz).success = fixApplies path fitz r := by
  unfold implementRemediation fixApplies
  cases h : supportedFixTypes.contains r.issue_type <;>
    cases h2 : fitz path r.issue_type <;> simp [h, h2]

theorem implementRemediation_path (path : String) (r : RemediationData)
    (fitz : FixOracle) :
    (implementRemediation path r fitz).fixed_file_path
      = if fixApplies path fitz r then some (generateFixedFilePath path) else none := by
  unfold implementRemediation fixApplies
  cases h : supportedFixTypes.contains r.issue_type <;>
    cases h2 : fitz path r.issue_type <;> simp [h, h2]

theorem bulkFixLoop_spec (path : String) (fitz : FixOracle) (rems : List RemediationData) :
    ∀ (s f : Nat) (fp : Option String),
      bulkFixLoop path fitz rems s f fp
        = (s + rems.countP (fixApplies path fitz),
           f + rems.countP (fun r => !fixApplies path fitz r),
           match fp with
           | some p => some p
           | none =>
             if rems.any (fixApplies path fitz)
             then some (generateFixedFilePath path) else none) := by
  induction rems with
  | nil => intro s f fp; cases fp <;> simp [bulkFixLoop]
  | cons r rest ih =>
    intro s f fp
    unfold bulkFixLoop
    simp only [implementRemediation_success, implementRemediation_path]
    cases hR : fixApplies path fitz r
    · simp only [hR, Bool.false_eq_true, if_false]
      rw [ih]
      cases fp <;>
        simp [List.countP_cons, List.any_cons, hR] <;> omega
    · simp only [hR, if_true]
      rw [ih]
      cases fp <;>
        simp [List.countP_cons, List.any_cons, hR] <;> omega

theorem countP_bne_zero_eq_any {α : Type} (p : α → Bool) (l : List α) :
    (l.countP p != 0) = l.any p := by
  induction l with
  | nil => simp
  | cons a as ih =>
    cases h : p a <;> simp [List.countP_cons, List.any_cons, h, ih]

theorem implementBulkFixes_spec (path : String) (rems : List RemediationData)
    (fitz : FixOracle) (backupOk : String → Bool) (hbk : backupOk path = true) :
    implementBulkFixes path rems fitz backupOk
      = { success := rems.any (fixApplies path fitz)
        , total_fixes := rems.length
        , successful_fixes := rems.countP (fixApplies path fitz)
        , failed_fixes := rems.countP (fun r => !fixApplies path fitz r)
        , fixed_file_path :=
            if rems.any (fixApplies path fitz)
            then some (generateFixedFilePath path) else none } := by
  unfold implementBulkFixes
  rw [hbk, bulkFixLoop_spec]
  simp [countP_bne_zero_eq_any]

theorem generateFixedFilePath_ne_empty (p : String) : generateFixedFilePath p ≠ "" := by
  unfold generateFixedFilePath
  intro h
  have hl := congrArg String.length h
  rw [String.length_append] at hl
  have h10 : (".fixed.pdf" : String).length = 10 := by decide
  have h0 : ("" : String).length = 0 := by decide
  omega

/-- C6 counterexample: one document group holding two approved plans, one
fixable (`missing_alt_text`) and one with no fix method (`missing_text`):
the bulk-implementation run finishes with successful = 1 AND failed = 1,
yet both plans end up `implemented` — per-issue partial success inside a
single document's application pass, and the plan counted as failed does not
keep its previous status. -/
theorem c6_counterexample :
    (processBulkImplementations stC6 ["p1", "p2"] "u1" fitzAll bkAll).2.1 = 1
      ∧ (processBulkImplementations stC6 ["p1", "p2"] "u1" fitzAll bkAll).2.2 = 1
      ∧ ((processBulkImplementations stC6 ["p1", "p2"] "u1" fitzAll bkAll).1.plans.all
          (fun p => p.implementation_status == "implemented")) = true :=
  ⟨by decide, by decide, by decide⟩

/-- C6 (amended): bulk implementation groups plans by owning document, but a
group is atomic only in failure: when no individual fix in the group
succeeds, the whole group is counted failed and no status changes; when at
least one fix succeeds, EVERY plan of the group (including individually
failed ones) is marked `implemented`, the counters advance by the per-item
fix counts, and the document's storage location is updated to the produced
artifact path. -/
theorem c6_group_behavior_amended (st : Store) (userId : String) (fitz : FixOracle)
    (backupOk : String → Bool) (s f : Nat) (pdfId : String)
    (rems : List RemediationData) (pdf : PDFDocument)
    (hown : findOwnedPdf st pdfId userId = some pdf)
    (hbk : backupOk pdf.file_path = true) :
    ((implementBulkFixes pdf.file_path rems fitz backupOk).success
        = rems.any (fixApplies pdf.file_path fitz))
      ∧ (rems.any (fixApplies pdf.file_path fitz) = false →
          processImplementGroup st userId fitz backupOk (s, f) pdfId rems
            = (st, s, f + rems.length))
      ∧ (rems.any (fixApplies pdf.file_path fitz) = true →
          processImplementGroup st userId fitz backupOk (s, f) pdfId rems
            = (setFilePath (markImplemented st rems) pdfId
                 (generateFixedFilePath pdf.file_path),
               s + rems.countP (fixApplies pdf.file_path fitz),
               f + rems.countP (fun r => !fixApplies pdf.file_path fitz r))) := by
  have hspec := implementBulkFixes_spec pdf.file_path rems fitz backupOk hbk
  refine ⟨by rw [hspec], ?_, ?_⟩
  · intro hany
    unfold processImplementGroup
    simp only [hown, hspec, hany, Bool.false_eq_true, if_false]
  · intro hany
    unfold processImplementGroup
    simp only [hown, hspec, hany, if_true]
    simp [generateFixedFilePath_ne_empty]

/-- Witness for C6 (amended) on the concrete mixed group of `stC6`. -/
theorem c6_witness :
    findOwnedPdf stC6 "d1" "u1" = some docD1
      ∧ processImplementGroup stC6 "u1" fitzAll bkAll (0, 0) "d1" remsC6
          = (setFilePath (markImplemented stC6 remsC6) "d1"
               (generateFixedFilePath docD1.file_path), 1, 1) := by
  refine ⟨by decide, ?_⟩
  have h := (c6_group_behavior_amended stC6 "u1" fitzAll bkAll 0 0 "d1" remsC6 docD1
    (by decide) (by decide)).2.2 (by decide)
  exact h.trans (by decide)

/-- C10: whenever at least one item is selected, the synchronous response of
bulk-generate and bulk-implement reports successful = 0 and failed = 0 with
total_processed equal to the selection size; the counts the detached task
finalizes go only to its log line — concretely, a run finalizing failed = 1
leaves the persisted store bit-for-bit unchanged, so no endpoint reading
the store can ever surface the finalized counts. -/
theorem c10_bulk_response :
    (∀ (st : Store) (userId : String) (req : BulkRemediationRequest),
        selectBulkIssues st userId req ≠ [] →
          (generateBulkRemediations st userId req).response.successful = 0
          ∧ (generateBulkRemediations st userId req).response.failed = 0
          ∧ (generateBulkRemediations st userId req).response.total_processed
              = (selectBulkIssues st userId req).length)
      ∧ (∀ (st : Store) (userId : String) (req : BulkRemediationRequest),
          selectImplementPlans st userId req ≠ [] →
            (implementBulkRemediations st userId req).response.successful = 0
            ∧ (implementBulkRemediations st userId req).response.failed = 0
            ∧ (implementBulkRemediations st userId req).response.total_processed
                = (selectImplementPlans st userId req).length)
      ∧ (processBulkRemediations stGhost ["ghost"] "u1" aiNone).failed = 1
      ∧ (processBulkRemediations stGhost ["ghost"] "u1" aiNone).log = [(0, 1)]
      ∧ (processBulkRemediations stGhost ["ghost"] "u1" aiNone).store = stGhost := by
  refine ⟨?_, ?_, by decide, by decide, by decide⟩
  · intro st userId req hne
    have h : (selectBulkIssues st userId req).isEmpty = false := by
      cases hc : selectBulkIssues st userId req
      · exact absurd hc hne
      · rfl
    simp [generateBulkRemediations, h]
  · intro st userId req hne
    have h : (selectImplementPlans st userId req).isEmpty = false := by
      cases hc : selectImplementPlans st userId req
      · exact absurd hc hne
      · rfl
    simp [implementBulkRemediations, h]

/-- Witness for C10 on `stSel`, where bulk generation selects one issue and
bulk implementation selects one plan. -/
theorem c10_witness :
    selectBulkIssues stSel "u1" reqNone ≠ []
      ∧ ((generateBulkRemediations stSel "u1" reqNone).response.successful = 0
          ∧ (generateBulkRemediations stSel "u1" reqNone).response.failed = 0
          ∧ (generateBulkRemediations stSel "u1" reqNone).response.total_processed
              = (selectBulkIssues stSel "u1" reqNone).length)
      ∧ selectImplementPlans stSel "u1" reqNone ≠ []
      ∧ ((implementBulkRemediations stSel "u1" reqNone).response.successful = 0
          ∧ (implementBulkRemediations stSel "u1" reqNone).response.failed = 0
          ∧ (implementBulkRemediations stSel "u1" reqNone).response.total_processed
              = (selectImplementPlans stSel "u1" reqNone).length) :=
  ⟨by decide, c10_bulk_response.1 stSel "u1" reqNone (by decide),
   by decide, c10_bulk_response.2.1 stSel "u1" reqNone (by decide)⟩

end A11y
